import Mathlib

/-!
# SafeShift 2030 — verification of the risk-assessment pipeline

Shallow embedding of the risk-scoring and alerting code of the
SafeShift 2030 repository, together with proofs about it.

The scoring function is taken from
`frontend/src/app/services/shift.service.ts` (`calculateSafeShiftIndex`);
the shift and alert data model from `frontend/src/app/models/shift.model.ts`
and `frontend/src/app/models/burnout-alert.model.ts` together with the
`BurnoutAlerts` table of the database schema; the dashboard statistics from
the dashboard components (`calculateStats`).  The backend anomaly scanner
(`anomaly_service.py`) is not part of the source tree, so its detection and
deduplication behaviour is modelled from the specification where needed and
marked as such.  JavaScript numbers are embedded as rationals (`ℚ`),
`Math.round` as round-half-up.
-/

namespace SafeShift

/-- JavaScript `Math.round`: round half toward positive infinity. -/
def jsRound (x : ℚ) : ℤ := ⌊x + 1/2⌋

/-- `export type ShiftType = 'day' | 'night'` (shift.model.ts). -/
inductive ShiftCategory where
  | day
  | night
deriving DecidableEq, Repr

/-- `export type Zone = 'green' | 'yellow' | 'red'` (shift.model.ts). -/
inductive Zone where
  | green
  | yellow
  | red
deriving DecidableEq, Repr

/-- `ShiftFormData` (shift.model.ts): the user-editable attributes of a
shift.  Numeric fields are JavaScript numbers, embedded as `ℚ`. -/
structure ShiftFormData where
  ShiftDate : String
  HoursSleptBefore : ℚ
  ShiftType : ShiftCategory
  ShiftLengthHours : ℚ
  PatientsCount : ℚ
  StressLevel : ℚ
  ShiftNote : Option String
deriving DecidableEq, Repr

/-- Sleep factor (0-30 points) of `calculateSafeShiftIndex`
(shift.service.ts): `if (HoursSleptBefore < 5) 30; else if (< 6) 20;
else if (< 7) 10; else 5`. -/
def sleepFactor (h : ℚ) : ℤ :=
  if h < 5 then 30 else if h < 6 then 20 else if h < 7 then 10 else 5

/-- Shift length factor (0-20 points):
`if (ShiftLengthHours > 10) 20; else if (> 8) 10; else 5`. -/
def lengthFactor (len : ℚ) : ℤ :=
  if len > 10 then 20 else if len > 8 then 10 else 5

/-- Night shift factor (0-15 points):
`if (shift.ShiftType === 'night') index += 15`. -/
def nightFactor (t : ShiftCategory) : ℤ :=
  if t = ShiftCategory.night then 15 else 0

/-- Stress factor (0-25 points):
`index += Math.round((shift.StressLevel / 10) * 25)`. -/
def stressFactor (s : ℚ) : ℤ :=
  jsRound (s / 10 * 25)

/-- Patient load factor (0-10 points):
`if (PatientsCount > 15) 10; else if (> 10) 5`. -/
def patientsFactor (p : ℚ) : ℤ :=
  if p > 15 then 10 else if p > 10 then 5 else 0

/-- Zone determination at the end of `calculateSafeShiftIndex`:
`if (index < 40) zone = 'green'; else if (index < 60) zone = 'yellow';
else zone = 'red'`. -/
def zoneOf (index : ℤ) : Zone :=
  if index < 40 then Zone.green else if index < 60 then Zone.yellow else Zone.red

/-- `calculateSafeShiftIndex` (shift.service.ts, lines 181-212): the sum of
the five capped contributions, and the zone derived from the total. -/
def calculateSafeShiftIndex (shift : ShiftFormData) : ℤ × Zone :=
  let index :=
    sleepFactor shift.HoursSleptBefore
    + lengthFactor shift.ShiftLengthHours
    + nightFactor shift.ShiftType
    + stressFactor shift.StressLevel
    + patientsFactor shift.PatientsCount
  (index, zoneOf index)

/-- Rendering of a `Zone` as the string literal used by the TypeScript
union type. -/
def zoneText : Zone → String
  | Zone.green => "green"
  | Zone.yellow => "yellow"
  | Zone.red => "red"

/-- Rendering of a `ShiftCategory` as the string literal used by the
TypeScript union type. -/
def categoryText : ShiftCategory → String
  | ShiftCategory.day => "day"
  | ShiftCategory.night => "night"

/-- `generateAIExplanation` (shift.service.ts): the mock explanation
string.  JavaScript number formatting is abstracted by `toString` on the
embedded numbers. -/
def generateAIExplanation (shift : ShiftFormData) (index : ℤ) (zone : String) :
    String :=
  let sleepQuality :=
    if shift.HoursSleptBefore ≥ 7 then "adequate"
    else if shift.HoursSleptBefore ≥ 6 then "moderate" else "insufficient"
  let stressLevel :=
    if shift.StressLevel ≥ 7 then "high"
    else if shift.StressLevel ≥ 4 then "moderate" else "low"
  "Your SafeShift Index is in the " ++ zone ++ " zone (" ++ toString index
    ++ "/100). You had " ++ sleepQuality ++ " sleep ("
    ++ toString shift.HoursSleptBefore ++ " hours) before a "
    ++ toString shift.ShiftLengthHours ++ "-hour "
    ++ categoryText shift.ShiftType ++ " shift with " ++ stressLevel
    ++ " stress levels."

/-- `generateAITips` (shift.service.ts): fixed tip text per zone. -/
def generateAITips (zone : String) : String :=
  if zone = "green" then
    "• Maintain your current sleep schedule\n• Continue healthy habits\n• Stay hydrated and take breaks"
  else if zone = "yellow" then
    "• Prioritize 7-8 hours of sleep tonight\n• Take all scheduled breaks\n• Practice stress management techniques\n• Monitor your energy levels"
  else
    "• Get recovery sleep as soon as possible\n• Consider requesting time off\n• Speak with supervisor about workload\n• Practice self-care and seek support\n• Avoid consecutive demanding shifts"

/-- `Shift` (shift.model.ts): a persisted shift record; the derived fields
(`SafeShiftIndex`, `Zone`, AI texts, timestamps) are optional. -/
structure Shift where
  ShiftId : ℕ
  UserId : ℕ
  ShiftDate : String
  HoursSleptBefore : ℚ
  ShiftType : ShiftCategory
  ShiftLengthHours : ℚ
  PatientsCount : ℚ
  StressLevel : ℚ
  ShiftNote : Option String
  SafeShiftIndex : Option ℤ
  Zone : Option Zone
  AiExplanation : Option String
  AiTips : Option String
  CreatedAt : Option String
  UpdatedAt : Option String
deriving DecidableEq, Repr

/-- The user-editable attributes of a persisted shift, re-read as form
data (the argument shape `calculateSafeShiftIndex` expects). -/
def Shift.toFormData (s : Shift) : ShiftFormData :=
  { ShiftDate := s.ShiftDate
    HoursSleptBefore := s.HoursSleptBefore
    ShiftType := s.ShiftType
    ShiftLengthHours := s.ShiftLengthHours
    PatientsCount := s.PatientsCount
    StressLevel := s.StressLevel
    ShiftNote := s.ShiftNote }

/-- `createShift` (shift.service.ts, mock branch, lines 240-257): computes
the index and zone from the submitted attributes and stores them on the
new record.  `nextId` is the service counter and `now` the creation
timestamp. -/
def createShift (nextId : ℕ) (now : String) (shiftData : ShiftFormData) :
    Shift :=
  let r := calculateSafeShiftIndex shiftData
  { ShiftId := nextId
    UserId := 1
    ShiftDate := shiftData.ShiftDate
    HoursSleptBefore := shiftData.HoursSleptBefore
    ShiftType := shiftData.ShiftType
    ShiftLengthHours := shiftData.ShiftLengthHours
    PatientsCount := shiftData.PatientsCount
    StressLevel := shiftData.StressLevel
    ShiftNote := shiftData.ShiftNote
    SafeShiftIndex := some r.1
    Zone := some r.2
    AiExplanation := some (generateAIExplanation shiftData r.1 (zoneText r.2))
    AiTips := some (generateAITips (zoneText r.2))
    CreatedAt := some now
    UpdatedAt := some now }

/-- `Partial<ShiftFormData>` as used by `updateShift`: each attribute is
present (`some`) or absent (`none`) in the update payload. -/
structure ShiftFormPatch where
  ShiftDate : Option String
  HoursSleptBefore : Option ℚ
  ShiftType : Option ShiftCategory
  ShiftLengthHours : Option ℚ
  PatientsCount : Option ℚ
  StressLevel : Option ℚ
  ShiftNote : Option (Option String)
deriving DecidableEq, Repr

/-- `updateShift` (shift.service.ts, mock branch, lines 328-337):
`this.mockShifts[index] = { ...this.mockShifts[index], ...shiftData }` —
the spread merges the provided attributes over the stored record and
touches nothing else. -/
def updateShiftMerge (s : Shift) (p : ShiftFormPatch) : Shift :=
  { s with
    ShiftDate := p.ShiftDate.getD s.ShiftDate
    HoursSleptBefore := p.HoursSleptBefore.getD s.HoursSleptBefore
    ShiftType := p.ShiftType.getD s.ShiftType
    ShiftLengthHours := p.ShiftLengthHours.getD s.ShiftLengthHours
    PatientsCount := p.PatientsCount.getD s.PatientsCount
    StressLevel := p.StressLevel.getD s.StressLevel
    ShiftNote := p.ShiftNote.getD s.ShiftNote }

/-- Dashboard component state touched by `calculateStats`
(dashboard components, both variants). -/
structure DashboardState where
  totalShifts : ℕ
  averageStress : ℤ
  averageSleep : ℚ
  currentZone : Zone
deriving DecidableEq, Repr

/-- `calculateStats(shifts)` (dashboard components): sets the totals and,
for a non-empty list, the rounded averages; `currentZone` is taken from
the first shift when that shift carries a zone, otherwise kept. -/
def calculateStats (shifts : List Shift) (st : DashboardState) :
    DashboardState :=
  let st1 := { st with totalShifts := shifts.length }
  if shifts.length = 0 then
    { st1 with averageStress := 0, averageSleep := 0, currentZone := Zone.green }
  else
    let totalStress := (shifts.map Shift.StressLevel).sum
    let totalSleep := (shifts.map Shift.HoursSleptBefore).sum
    let st2 := { st1 with
      averageStress := jsRound (totalStress / shifts.length)
      averageSleep := (jsRound (totalSleep / shifts.length * 10) : ℚ) / 10 }
    match shifts with
    | [] => st2
    | s :: _ =>
      match s.Zone with
      | some z => { st2 with currentZone := z }
      | none => st2

/-! ## Alert data model

From `frontend/src/app/models/burnout-alert.model.ts` and the
`BurnoutAlerts` table of the database schema (both declare the same
four-value enumeration of alert kinds). -/

/-- `export type AlertType = 'chronic_low_sleep' | 'consecutive_nights' |
'high_stress_pattern' | 'declining_health'` (burnout-alert.model.ts,
line 1; identical ENUM in the `BurnoutAlerts` schema). -/
inductive AlertType where
  | chronic_low_sleep
  | consecutive_nights
  | high_stress_pattern
  | declining_health
deriving DecidableEq, Repr

/-- The string literal of each `AlertType` value as written in the
TypeScript union type and the SQL ENUM. -/
def AlertType.dbName : AlertType → String
  | AlertType.chronic_low_sleep => "chronic_low_sleep"
  | AlertType.consecutive_nights => "consecutive_nights"
  | AlertType.high_stress_pattern => "high_stress_pattern"
  | AlertType.declining_health => "declining_health"

/-- `export type AlertSeverity = 'low' | 'medium' | 'high' | 'critical'`
(burnout-alert.model.ts, line 2). -/
inductive AlertSeverity where
  | low
  | medium
  | high
  | critical
deriving DecidableEq, Repr

/-- `BurnoutAlert` (burnout-alert.model.ts). -/
structure BurnoutAlert where
  alertId : Option ℕ
  userId : ℕ
  alertType : AlertType
  severity : AlertSeverity
  description : Option String
  isResolved : Bool
  createdAt : Option String
  resolvedAt : Option String
deriving DecidableEq, Repr

/-- The four alert-kind strings the source code enumerates
(burnout-alert.model.ts line 1 and the `BurnoutAlerts` ENUM). -/
def codeAlertKinds : List String :=
  ["chronic_low_sleep", "consecutive_nights", "high_stress_pattern",
   "declining_health"]

/-- The five anomaly kinds the specification (§4.2) enumerates.  This
definition follows the words of the spec, for comparison with the
enumeration found in the source. -/
def specAnomalyKinds : List String :=
  ["consecutive_nights", "chronic_low_sleep", "rising_stress_trend",
   "frequent_high_risk", "extreme_single_shift"]

/-! ## Pattern detection and idempotent re-scan

The backend `anomaly_service.py` is not part of the source tree (only its
README, test summary and callers are), so the scanner is modelled from the
specification, §4.2. -/

namespace Patterns

/-- Modelled from the spec: the fixed anomaly kinds of §4.2 produced by
the missing `anomaly_service.py`. -/
inductive AnomalyKind where
  | consecutive_nights
  | chronic_low_sleep
  | rising_stress_trend
  | frequent_high_risk
  | extreme_single_shift
deriving DecidableEq, Repr

/-- Modelled from the spec: one finding of a scan — a kind together with
the severity the current window supports. -/
structure Finding where
  kind : AnomalyKind
  severity : AlertSeverity
deriving DecidableEq, Repr

/-- Modelled from the spec: a persisted Anomaly record — worker, kind,
severity, resolution state (§3, Anomaly). -/
structure Anomaly where
  workerId : ℕ
  kind : AnomalyKind
  severity : AlertSeverity
  resolved : Bool
deriving DecidableEq, Repr

/-- Longest run of consecutive `night` entries in the window (the ordered
window list stands in for calendar adjacency). -/
def maxNightStreak (w : List Shift) : ℕ :=
  (w.foldl
    (fun acc s =>
      match s.ShiftType with
      | ShiftCategory.night => (acc.1 + 1, max acc.2 (acc.1 + 1))
      | ShiftCategory.day => (0, acc.2))
    (0, 0)).2

/-- Modelled from the spec: `consecutive_nights` — three or more
consecutive night shifts; 3 → medium, 4 → high, 5+ → critical (§4.2.1). -/
def consecutiveNightsFinding (w : List Shift) : Option Finding :=
  let streak := maxNightStreak w
  if 5 ≤ streak then some ⟨AnomalyKind.consecutive_nights, AlertSeverity.critical⟩
  else if streak = 4 then some ⟨AnomalyKind.consecutive_nights, AlertSeverity.high⟩
  else if streak = 3 then some ⟨AnomalyKind.consecutive_nights, AlertSeverity.medium⟩
  else none

/-- Modelled from the spec: `chronic_low_sleep` — mean hours slept across
the window below 6h, severity scaling with how far below (§4.2.2; the
sub-bands at 5h and 4h are a documented choice, the spec leaves them
tunable). -/
def chronicLowSleepFinding (w : List Shift) : Option Finding :=
  let mean := (w.map Shift.HoursSleptBefore).sum / w.length
  if mean < 6 then
    if mean < 4 then some ⟨AnomalyKind.chronic_low_sleep, AlertSeverity.critical⟩
    else if mean < 5 then some ⟨AnomalyKind.chronic_low_sleep, AlertSeverity.high⟩
    else some ⟨AnomalyKind.chronic_low_sleep, AlertSeverity.medium⟩
  else none

/-- Modelled from the spec: `rising_stress_trend` — mean stress of the
second half of the window exceeds the first half by a minimum delta
(§4.2.3; the spec leaves the exact threshold tunable, 1.5 with a 3.0
high band is the documented choice here). -/
def risingStressFinding (w : List Shift) : Option Finding :=
  let firstHalf := w.take (w.length / 2)
  let secondHalf := w.drop (w.length / 2)
  let m1 := (firstHalf.map Shift.StressLevel).sum / firstHalf.length
  let m2 := (secondHalf.map Shift.StressLevel).sum / secondHalf.length
  if m2 - m1 ≥ 3 then some ⟨AnomalyKind.rising_stress_trend, AlertSeverity.high⟩
  else if m2 - m1 ≥ 3/2 then
    some ⟨AnomalyKind.rising_stress_trend, AlertSeverity.medium⟩
  else none

/-- Modelled from the spec: `frequent_high_risk` — at least 70% of the
window in yellow or red zone (§4.2.4). -/
def frequentHighRiskFinding (w : List Shift) : Option Finding :=
  let hits := w.countP (fun s =>
    decide (s.Zone = some Zone.yellow ∨ s.Zone = some Zone.red))
  if 7 * w.length ≤ 10 * hits then
    some ⟨AnomalyKind.frequent_high_risk, AlertSeverity.high⟩
  else none

/-- Modelled from the spec: `extreme_single_shift` — any shift in the
window with an index at or above 85 (§4.2.5). -/
def extremeSingleShiftFinding (w : List Shift) : Option Finding :=
  if w.any (fun s => decide (∃ i, s.SafeShiftIndex = some i ∧ 85 ≤ i)) then
    some ⟨AnomalyKind.extreme_single_shift, AlertSeverity.critical⟩
  else none

/-- Modelled from the spec: the detection pass of `detect(worker_id)` over
the 14-day window.  Fewer than 2 shifts evaluates only
`extreme_single_shift` (§4.2, edge cases); otherwise every kind is
evaluated and all triggered kinds are emitted. -/
def detect (w : List Shift) : List Finding :=
  if w.length < 2 then
    (extremeSingleShiftFinding w).toList
  else
    (consecutiveNightsFinding w).toList
    ++ (chronicLowSleepFinding w).toList
    ++ (risingStressFinding w).toList
    ++ (frequentHighRiskFinding w).toList
    ++ (extremeSingleShiftFinding w).toList

/-- Does alert `a` record an open (unresolved) anomaly of kind `k` for
worker `u`? -/
def isOpenOf (u : ℕ) (k : AnomalyKind) (a : Anomaly) : Bool :=
  decide (a.workerId = u ∧ a.kind = k ∧ a.resolved = false)

/-- Number of open anomalies of kind `k` for worker `u` on file. -/
def openCount (u : ℕ) (k : AnomalyKind) (alerts : List Anomaly) : ℕ :=
  alerts.countP (isOpenOf u k)

/-- Modelled from the spec: recording one finding (§4.2, idempotent
re-detection) — while an open unresolved finding of the same kind exists
for the worker, the scan re-evaluates its severity in place; otherwise a
new open Anomaly is created. -/
def applyFinding (u : ℕ) (f : Finding) (alerts : List Anomaly) :
    List Anomaly :=
  if alerts.any (isOpenOf u f.kind) then
    alerts.map (fun a =>
      if isOpenOf u f.kind a then { a with severity := f.severity } else a)
  else
    alerts ++ [{ workerId := u, kind := f.kind, severity := f.severity,
                 resolved := false }]

/-- Modelled from the spec: `scan_patterns(worker_id)` — detect over the
worker's window, then record each finding against the alert store. -/
def scanPatterns (u : ℕ) (window : List Shift) (alerts : List Anomaly) :
    List Anomaly :=
  (detect window).foldl (fun acc f => applyFinding u f acc) alerts

end Patterns

/-! ## Concrete records used in the proofs -/

/-- Specification §8, Scenario A: `hours_slept=4, category=night,
duration=12, workload=18, stress=8`. -/
def scenarioA : ShiftFormData :=
  { ShiftDate := "2025-11-28", HoursSleptBefore := 4,
    ShiftType := ShiftCategory.night, ShiftLengthHours := 12,
    PatientsCount := 18, StressLevel := 8, ShiftNote := none }

/-- A valid input whose total lands exactly on the zone boundary 60:
7h sleep (5 pts), day (0), 12h length (20), 16 patients (10),
stress 10 (25). -/
def boundaryShift : ShiftFormData :=
  { ShiftDate := "2026-01-15", HoursSleptBefore := 7,
    ShiftType := ShiftCategory.day, ShiftLengthHours := 12,
    PatientsCount := 16, StressLevel := 10, ShiftNote := none }

/-- A calm, valid shift submission (7h sleep, day, 8h, 5 patients,
stress 2). -/
def demoForm : ShiftFormData :=
  { ShiftDate := "2026-01-10", HoursSleptBefore := 7,
    ShiftType := ShiftCategory.day, ShiftLengthHours := 8,
    PatientsCount := 5, StressLevel := 2, ShiftNote := none }

/-- The record the mock service stores for `demoForm`. -/
def demoStored : Shift := createShift 1 "2026-01-10T08:00:00Z" demoForm

/-- An update payload changing only the scoring-relevant attribute
`StressLevel` (2 → 9). -/
def stressPatch : ShiftFormPatch :=
  { ShiftDate := none, HoursSleptBefore := none, ShiftType := none,
    ShiftLengthHours := none, PatientsCount := none, StressLevel := some 9,
    ShiftNote := none }

/-- The stored record after the mock `updateShift` merge of
`stressPatch`. -/
def demoUpdated : Shift := updateShiftMerge demoStored stressPatch

/-- A finished, scored shift used to exercise the dashboard statistics. -/
def wsShift : Shift :=
  { ShiftId := 1, UserId := 1, ShiftDate := "2026-01-01",
    HoursSleptBefore := 7, ShiftType := ShiftCategory.day,
    ShiftLengthHours := 8, PatientsCount := 5, StressLevel := 4,
    ShiftNote := none, SafeShiftIndex := some 42, Zone := some Zone.yellow,
    AiExplanation := none, AiTips := none, CreatedAt := none,
    UpdatedAt := none }

/-- A fresh dashboard state. -/
def freshDashboard : DashboardState :=
  { totalShifts := 0, averageStress := 0, averageSleep := 0,
    currentZone := Zone.green }

/-! ## Bounds and monotonicity of the five contributions -/

theorem le_sleepFactor (h : ℚ) : 5 ≤ sleepFactor h := by
  unfold sleepFactor; split_ifs <;> norm_num

theorem sleepFactor_le (h : ℚ) : sleepFactor h ≤ 30 := by
  unfold sleepFactor; split_ifs <;> norm_num

theorem le_lengthFactor (len : ℚ) : 5 ≤ lengthFactor len := by
  unfold lengthFactor; split_ifs <;> norm_num

theorem lengthFactor_le (len : ℚ) : lengthFactor len ≤ 20 := by
  unfold lengthFactor; split_ifs <;> norm_num

theorem le_nightFactor (t : ShiftCategory) : 0 ≤ nightFactor t := by
  unfold nightFactor; split_ifs <;> norm_num

theorem nightFactor_le (t : ShiftCategory) : nightFactor t ≤ 15 := by
  unfold nightFactor; split_ifs <;> norm_num

theorem le_patientsFactor (p : ℚ) : 0 ≤ patientsFactor p := by
  unfold patientsFactor; split_ifs <;> norm_num

theorem patientsFactor_le (p : ℚ) : patientsFactor p ≤ 10 := by
  unfold patientsFactor; split_ifs <;> norm_num

theorem le_stressFactor (s : ℚ) (hs : 1 ≤ s) : 3 ≤ stressFactor s := by
  unfold stressFactor jsRound
  exact Int.le_floor.mpr (by push_cast; linarith)

theorem stressFactor_le (s : ℚ) (hs : s ≤ 10) : stressFactor s ≤ 25 := by
  unfold stressFactor jsRound
  have h26 : ⌊s / 10 * 25 + 1/2⌋ < 26 := Int.floor_lt.mpr (by push_cast; linarith)
  omega

theorem sleepFactor_antitone {a b : ℚ} (hab : a ≤ b) :
    sleepFactor b ≤ sleepFactor a := by
  unfold sleepFactor; split_ifs <;> linarith

theorem lengthFactor_monotone {a b : ℚ} (hab : a ≤ b) :
    lengthFactor a ≤ lengthFactor b := by
  unfold lengthFactor; split_ifs <;> linarith

theorem stressFactor_monotone {a b : ℚ} (hab : a ≤ b) :
    stressFactor a ≤ stressFactor b := by
  unfold stressFactor jsRound
  exact Int.floor_mono (by linarith)

theorem nightFactor_day : nightFactor ShiftCategory.day = 0 := rfl

theorem nightFactor_night : nightFactor ShiftCategory.night = 15 := rfl

theorem calcIndex_eq (shift : ShiftFormData) :
    (calculateSafeShiftIndex shift).1 =
      sleepFactor shift.HoursSleptBefore
      + lengthFactor shift.ShiftLengthHours
      + nightFactor shift.ShiftType
      + stressFactor shift.StressLevel
      + patientsFactor shift.PatientsCount := rfl

theorem calcZone_eq (shift : ShiftFormData) :
    (calculateSafeShiftIndex shift).2 = zoneOf (calculateSafeShiftIndex shift).1 := rfl

/-! ## Claim theorems -/

/-- C1: for every input satisfying the validated ranges (hours slept in
[0,24], category day or night, duration in [1,24], workload ≥ 0,
stress in 1..10), the risk index returned by `calculateSafeShiftIndex`
is an integer in [0,100] (the codomain is `ℤ`, and the sum of the five
contributions stays inside the bound without any clamping). -/
theorem index_in_valid_range (shift : ShiftFormData)
    (hsl0 : 0 ≤ shift.HoursSleptBefore) (hsl24 : shift.HoursSleptBefore ≤ 24)
    (hlen1 : 1 ≤ shift.ShiftLengthHours) (hlen24 : shift.ShiftLengthHours ≤ 24)
    (hpat : 0 ≤ shift.PatientsCount)
    (hstr1 : 1 ≤ shift.StressLevel) (hstr10 : shift.StressLevel ≤ 10) :
    0 ≤ (calculateSafeShiftIndex shift).1 ∧
      (calculateSafeShiftIndex shift).1 ≤ 100 := by
  rw [calcIndex_eq]
  have b1 := le_sleepFactor shift.HoursSleptBefore
  have b2 := sleepFactor_le shift.HoursSleptBefore
  have b3 := le_lengthFactor shift.ShiftLengthHours
  have b4 := lengthFactor_le shift.ShiftLengthHours
  have b5 := le_nightFactor shift.ShiftType
  have b6 := nightFactor_le shift.ShiftType
  have b7 := le_stressFactor shift.StressLevel hstr1
  have b8 := stressFactor_le shift.StressLevel hstr10
  have b9 := le_patientsFactor shift.PatientsCount
  have b10 := patientsFactor_le shift.PatientsCount
  constructor <;> linarith

/-- C1 witness: the bound applied to the concrete valid shift
`demoForm`. -/
theorem index_in_valid_range_witness :
    0 ≤ (calculateSafeShiftIndex demoForm).1 ∧
      (calculateSafeShiftIndex demoForm).1 ≤ 100 :=
  index_in_valid_range demoForm (by norm_num [demoForm])
    (by norm_num [demoForm]) (by norm_num [demoForm]) (by norm_num [demoForm])
    (by norm_num [demoForm]) (by norm_num [demoForm]) (by norm_num [demoForm])

/-- C2 counterexample: the valid input `boundaryShift` scores exactly 60,
and the code assigns zone red; the claimed bands (yellow up to 69, red
from 70) would place index 60 in yellow. -/
theorem zone_threshold_counterexample :
    (calculateSafeShiftIndex boundaryShift).1 = 60 ∧
      (calculateSafeShiftIndex boundaryShift).2 = Zone.red ∧
      (calculateSafeShiftIndex boundaryShift).2 ≠ Zone.yellow := by
  have h2 : (calculateSafeShiftIndex boundaryShift).2 = Zone.red := by
    norm_num [boundaryShift, calculateSafeShiftIndex, sleepFactor,
      lengthFactor, nightFactor_day, stressFactor, patientsFactor, jsRound,
      zoneOf]
  refine ⟨?_, h2, by rw [h2]; decide⟩
  norm_num [boundaryShift, calculateSafeShiftIndex, sleepFactor,
    lengthFactor, nightFactor_day, stressFactor, patientsFactor, jsRound,
    zoneOf]

/-- C2 (amended): the zone is a deterministic function of the final index
alone, with fixed non-overlapping bands — green for index ≤ 39, yellow
for 40–59, and red for index ≥ 60 (the red band starts at 60, not 70). -/
theorem zone_bands_of_index (shift : ShiftFormData) :
    ((calculateSafeShiftIndex shift).2 = Zone.green ↔
        (calculateSafeShiftIndex shift).1 ≤ 39) ∧
    ((calculateSafeShiftIndex shift).2 = Zone.yellow ↔
        40 ≤ (calculateSafeShiftIndex shift).1 ∧
          (calculateSafeShiftIndex shift).1 ≤ 59) ∧
    ((calculateSafeShiftIndex shift).2 = Zone.red ↔
        60 ≤ (calculateSafeShiftIndex shift).1) := by
  rw [calcZone_eq]
  generalize (calculateSafeShiftIndex shift).1 = i
  unfold zoneOf
  split_ifs <;> simp <;> omega

/-- C3: holding all other attributes fixed, decreasing the hours slept
never decreases the index, increasing the stress level never decreases
it, and increasing the duration never decreases it. -/
theorem index_monotone (shift : ShiftFormData) (h s len : ℚ)
    (hh : h ≤ shift.HoursSleptBefore) (hs : shift.StressLevel ≤ s)
    (hlen : shift.ShiftLengthHours ≤ len) :
    (calculateSafeShiftIndex shift).1 ≤
        (calculateSafeShiftIndex { shift with HoursSleptBefore := h }).1 ∧
    (calculateSafeShiftIndex shift).1 ≤
        (calculateSafeShiftIndex { shift with StressLevel := s }).1 ∧
    (calculateSafeShiftIndex shift).1 ≤
        (calculateSafeShiftIndex { shift with ShiftLengthHours := len }).1 := by
  rw [calcIndex_eq, calcIndex_eq { shift with HoursSleptBefore := h },
    calcIndex_eq { shift with StressLevel := s },
    calcIndex_eq { shift with ShiftLengthHours := len }]
  have m1 := sleepFactor_antitone hh
  have m2 := stressFactor_monotone hs
  have m3 := lengthFactor_monotone hlen
  refine ⟨?_, ?_, ?_⟩ <;> simp <;> linarith

/-- C3 witness: the monotonicity facts applied to `demoForm` with less
sleep (4h), more stress (9) and a longer shift (12h). -/
theorem index_monotone_witness :
    (calculateSafeShiftIndex demoForm).1 ≤
        (calculateSafeShiftIndex { demoForm with HoursSleptBefore := 4 }).1 ∧
    (calculateSafeShiftIndex demoForm).1 ≤
        (calculateSafeShiftIndex { demoForm with StressLevel := 9 }).1 ∧
    (calculateSafeShiftIndex demoForm).1 ≤
        (calculateSafeShiftIndex { demoForm with ShiftLengthHours := 12 }).1 :=
  index_monotone demoForm 4 9 12 (by norm_num [demoForm])
    (by norm_num [demoForm]) (by norm_num [demoForm])

/-- C6: Scenario A (4h sleep, night, 12h shift, 18 patients, stress 8)
scores 95 and lands in the red zone — inside the red band whether the
red threshold is taken at 60 (code) or 70 (spec default). -/
theorem scenarioA_red_zone :
    (calculateSafeShiftIndex scenarioA).1 = 95 ∧
      (calculateSafeShiftIndex scenarioA).2 = Zone.red := by
  constructor <;>
    norm_num [scenarioA, calculateSafeShiftIndex, sleepFactor, lengthFactor,
      nightFactor_night, stressFactor, patientsFactor, jsRound, zoneOf]

/-- C7: holding all other attributes fixed, a night shift scores exactly
15 points more than the identical day shift — one fixed positive
constant, independent of every other attribute. -/
theorem night_day_fixed_difference (date : String) (h len p s : ℚ)
    (note : Option String) :
    (calculateSafeShiftIndex
        { ShiftDate := date, HoursSleptBefore := h,
          ShiftType := ShiftCategory.night, ShiftLengthHours := len,
          PatientsCount := p, StressLevel := s, ShiftNote := note }).1
      = (calculateSafeShiftIndex
          { ShiftDate := date, HoursSleptBefore := h,
            ShiftType := ShiftCategory.day, ShiftLengthHours := len,
            PatientsCount := p, StressLevel := s, ShiftNote := note }).1
        + 15 := by
  rw [calcIndex_eq, calcIndex_eq]
  simp [nightFactor]
  ring

/-- C9: for every input satisfying the validated ranges the index is at
least 13 (sleep ≥ 5, length ≥ 5, stress ≥ 3 once stress ≥ 1); in
particular `calculateSafeShiftIndex` never returns 0. -/
theorem index_at_least_thirteen (shift : ShiftFormData)
    (hstr1 : 1 ≤ shift.StressLevel) :
    13 ≤ (calculateSafeShiftIndex shift).1 ∧
      (calculateSafeShiftIndex shift).1 ≠ 0 := by
  rw [calcIndex_eq]
  have b1 := le_sleepFactor shift.HoursSleptBefore
  have b3 := le_lengthFactor shift.ShiftLengthHours
  have b5 := le_nightFactor shift.ShiftType
  have b7 := le_stressFactor shift.StressLevel hstr1
  have b9 := le_patientsFactor shift.PatientsCount
  have h13 : (13:ℤ) ≤ sleepFactor shift.HoursSleptBefore
      + lengthFactor shift.ShiftLengthHours + nightFactor shift.ShiftType
      + stressFactor shift.StressLevel + patientsFactor shift.PatientsCount := by
    linarith
  exact ⟨h13, by omega⟩

/-- C9 witness: the lower bound applied to the concrete valid shift
`demoForm`. -/
theorem index_at_least_thirteen_witness :
    13 ≤ (calculateSafeShiftIndex demoForm).1 ∧
      (calculateSafeShiftIndex demoForm).1 ≠ 0 :=
  index_at_least_thirteen demoForm (by norm_num [demoForm])

/-- C4 (divergence of the code from its own documentation): the stored
record for `demoForm` carries index 15; the mock `updateShift` merge of a
stress change (2 → 9) updates the attribute but leaves `SafeShiftIndex`
at the stale 15 instead of the recomputed 33. -/
theorem update_leaves_index_stale :
    demoUpdated.StressLevel = 9 ∧
    demoStored.SafeShiftIndex = some 15 ∧
    demoUpdated.SafeShiftIndex = some 15 ∧
    (calculateSafeShiftIndex demoUpdated.toFormData).1 = 33 ∧
    demoUpdated.SafeShiftIndex
      ≠ some (calculateSafeShiftIndex demoUpdated.toFormData).1 := by
  have hidx : (calculateSafeShiftIndex demoForm).1 = 15 := by
    norm_num [demoForm, calculateSafeShiftIndex, sleepFactor, lengthFactor,
      nightFactor_day, stressFactor, patientsFactor, jsRound]
  have hstored : demoStored.SafeShiftIndex = some 15 := by
    show some (calculateSafeShiftIndex demoForm).1 = some 15
    rw [hidx]
  have hupd : demoUpdated.SafeShiftIndex = some 15 := hstored
  have hstress : demoUpdated.StressLevel = 9 := rfl
  have hnew : (calculateSafeShiftIndex demoUpdated.toFormData).1 = 33 := by
    norm_num [demoUpdated, updateShiftMerge, demoStored, createShift,
      stressPatch, demoForm, Shift.toFormData, calculateSafeShiftIndex,
      sleepFactor, lengthFactor, nightFactor_day, stressFactor,
      patientsFactor, jsRound]
  refine ⟨hstress, hstored, hupd, hnew, ?_⟩
  rw [hupd, hnew]
  decide

/-- C5 counterexample: the alert-kind enumeration of the code contains
`high_stress_pattern`, which is not among the five kinds the claim
enumerates. -/
theorem alert_kinds_counterexample :
    AlertType.dbName AlertType.high_stress_pattern ∉ specAnomalyKinds := by
  decide

/-- C5 (amended): every alert's kind is drawn from the fixed enumerated
set of four kinds the code declares — `chronic_low_sleep`,
`consecutive_nights`, `high_stress_pattern`, `declining_health` — and no
other kind. -/
theorem alert_kinds_enumerated (a : BurnoutAlert) :
    AlertType.dbName a.alertType ∈ codeAlertKinds := by
  cases a.alertType <;> simp [AlertType.dbName, codeAlertKinds]

/-- C10: on an empty list of finished shifts `calculateStats` sets
`averageStress` to 0, `averageSleep` to 0 and `currentZone` to green
without failing; on a non-empty list `averageStress` is the rounded mean
stress and `currentZone` the zone of the first shift. -/
theorem calculateStats_empty_and_nonempty (st : DashboardState) (s : Shift)
    (rest : List Shift) (z : Zone) (hz : s.Zone = some z) :
    (calculateStats [] st).averageStress = 0 ∧
    (calculateStats [] st).averageSleep = 0 ∧
    (calculateStats [] st).currentZone = Zone.green ∧
    (calculateStats (s :: rest) st).averageStress
      = jsRound (((s :: rest).map Shift.StressLevel).sum
          / ((s :: rest).length : ℚ)) ∧
    (calculateStats (s :: rest) st).currentZone = z := by
  refine ⟨rfl, rfl, rfl, ?_, ?_⟩ <;> simp [calculateStats, hz]

/-- C10 witness: the statistics applied to the empty list and to the
single finished shift `wsShift` (stress 4, yellow zone). -/
theorem calculateStats_witness :
    (calculateStats [] freshDashboard).averageStress = 0 ∧
    (calculateStats [] freshDashboard).averageSleep = 0 ∧
    (calculateStats [] freshDashboard).currentZone = Zone.green ∧
    (calculateStats [wsShift] freshDashboard).averageStress
      = jsRound ((([wsShift] : List Shift).map Shift.StressLevel).sum
          / ((([wsShift] : List Shift)).length : ℚ)) ∧
    (calculateStats [wsShift] freshDashboard).currentZone = Zone.yellow :=
  calculateStats_empty_and_nonempty freshDashboard wsShift [] Zone.yellow rfl

namespace Patterns

theorem isOpenOf_update (u w : ℕ) (k kf : AnomalyKind) (sev : AlertSeverity)
    (a : Anomaly) :
    isOpenOf w k (if isOpenOf u kf a then { a with severity := sev } else a)
      = isOpenOf w k a := by
  cases hcb : isOpenOf u kf a <;> simp [hcb] <;> rfl

theorem openCount_applyFinding (u w : ℕ) (f : Finding) (k : AnomalyKind)
    (s : List Anomaly) :
    openCount w k (applyFinding u f s)
      = if w = u ∧ k = f.kind then max 1 (openCount w k s)
        else openCount w k s := by
  unfold applyFinding openCount
  by_cases hany : s.any (isOpenOf u f.kind) = true
  case pos =>
      rw [if_pos hany, List.countP_map]
      have hpt : ∀ a ∈ s,
          ((isOpenOf w k) ∘ (fun a =>
            if isOpenOf u f.kind a then { a with severity := f.severity }
            else a)) a ↔ isOpenOf w k a := by
        intro a _
        rw [Function.comp_apply, isOpenOf_update]
      rw [List.countP_congr hpt]
      by_cases hwk : w = u ∧ k = f.kind
      · obtain ⟨hw, hk⟩ := hwk
        subst hw; subst hk
        rw [if_pos ⟨rfl, rfl⟩]
        obtain ⟨x, hx, hpx⟩ := List.any_eq_true.mp hany
        have hpos : 0 < s.countP (isOpenOf w f.kind) :=
          List.countP_pos_iff.mpr ⟨x, hx, hpx⟩
        omega
      · rw [if_neg hwk]
  case neg =>
      rw [if_neg hany, List.countP_append]
      by_cases hwk : w = u ∧ k = f.kind
      · obtain ⟨hw, hk⟩ := hwk
        subst hw; subst hk
        rw [if_pos ⟨rfl, rfl⟩]
        have h0 : s.countP (isOpenOf w f.kind) = 0 := by
          by_contra hne
          obtain ⟨x, hx, hpx⟩ :=
            List.countP_pos_iff.mp (Nat.pos_of_ne_zero hne)
          exact hany (List.any_eq_true.mpr ⟨x, hx, hpx⟩)
        simp [h0, isOpenOf]
      · rw [if_neg hwk]
        simp [isOpenOf]
        intro h1 h2
        exact hwk ⟨h1.symm, h2.symm⟩

theorem openCount_scan_fold (u : ℕ) (L : List Finding) (s : List Anomaly)
    (w : ℕ) (k : AnomalyKind) :
    openCount w k (L.foldl (fun acc f => applyFinding u f acc) s)
      = if w = u ∧ k ∈ L.map Finding.kind then max 1 (openCount w k s)
        else openCount w k s := by
  induction L generalizing s with
  | nil => simp
  | cons f L ih =>
      rw [List.foldl_cons, ih, openCount_applyFinding]
      by_cases hw : w = u
      · subst hw
        by_cases hk1 : k = f.kind <;> by_cases hk2 : k ∈ L.map Finding.kind <;>
          simp [hk1, hk2] <;> omega
      · simp [hw]

end Patterns

/-- C8: re-running the pattern scan for the same worker with the same
window and no intervening new shift data creates no duplicate open
anomaly of any kind — the number of open findings per (worker, kind) is
unchanged by the second scan, which updates rather than re-creates. -/
theorem scan_patterns_idempotent (u : ℕ) (window : List Shift)
    (alerts : List Patterns.Anomaly) (w : ℕ) (k : Patterns.AnomalyKind) :
    Patterns.openCount w k
        (Patterns.scanPatterns u window (Patterns.scanPatterns u window alerts))
      = Patterns.openCount w k (Patterns.scanPatterns u window alerts) := by
  unfold Patterns.scanPatterns
  rw [Patterns.openCount_scan_fold, Patterns.openCount_scan_fold]
  split_ifs <;> omega

end SafeShift
